import Mathlib

/-!
Shallow embedding of the karapace-operator charm's credential/ACL manager
(`src/managers/auth.py`), cluster status logic (`src/core/cluster.py`,
`src/core/models.py`), TLS event handlers (`src/events/tls.py`) and the
password-rotation action (`src/events/password_actions.py`), together with
theorems settling the specification claims about them.

Python dictionaries are embedded as insertion-ordered association lists
(`List (String × α)`): assignment replaces the value in place when the key is
present and appends otherwise, exactly like CPython dicts, so that rendering
order is preserved faithfully.
-/

namespace Karapace

/-- Python `d.get(k)`: first binding for `k`, if any. -/
def pyGet {α : Type} (d : List (String × α)) (k : String) : Option α :=
  (d.find? (fun p => p.1 == k)).map (fun p => p.2)

/-- Python `d[k] = v` / `d | {k: v}`: replace in place when present, else append. -/
def pySet {α : Type} (d : List (String × α)) (k : String) (v : α) :
    List (String × α) :=
  if (d.find? (fun p => p.1 == k)).isSome then
    d.map (fun p => if p.1 == k then (k, v) else p)
  else
    d ++ [(k, v)]

/-- Python `d.pop(k, None)`: drop the binding for `k` (no error when absent). -/
def pyPop {α : Type} (d : List (String × α)) (k : String) : List (String × α) :=
  d.filter (fun p => p.1 != k)

/-- Python `k in d`. -/
def pyContains {α : Type} (d : List (String × α)) (k : String) : Bool :=
  (pyGet d k).isSome

/-- Python `f"{x}"` on an optional value: `None` prints as the string `None`. -/
def pyFormatOpt : Option String → String
  | none => "None"
  | some s => s

/-- A relation databag (`ops` relation data): string keys to string values. -/
abbrev Databag := List (String × String)

/-- Embeds `d.get(k, default)` on a databag. -/
def dbGetD (d : Databag) (k default : String) : String :=
  (pyGet d k).getD default

/-- Embeds `RelationState.update` (src/core/models.py:63-71): keys mapped to an empty
value are deleted from the databag, the rest are written. -/
def relationStateUpdate (d : Databag) (items : List (String × String)) : Databag :=
  let deletes := items.filter (fun p => p.2 == "")
  let updates := items.filter (fun p => p.2 != "")
  deletes.foldl (fun acc p => pyPop acc p.1) (updates.foldl (fun acc p => pySet acc p.1 p.2) d)

/-! ## Auth manager data model (src/managers/auth.py) -/

/-- Embeds `UserCredentials` dataclass (src/managers/auth.py:33-40). -/
structure UserCredentials where
  username : String
  algorithm : String
  salt : String
  password_hash : String
deriving DecidableEq, Repr

/-- Embeds `Acl` dataclass (src/managers/auth.py:24-30). -/
structure Acl where
  username : String
  operation : String
  resource : String
deriving DecidableEq, Repr

/-- Embeds `AuthDictEntry` dataclass (src/managers/auth.py:43-48). -/
structure AuthDictEntry where
  credentials : UserCredentials
  acls : List Acl
deriving DecidableEq, Repr

/-- The in-memory auth state `KarapaceAuth.auth_dict`. -/
abbrev AuthDict := List (String × AuthDictEntry)

/-- The authfile structure written to disk
(`{"users": [...], "permissions": [...]}`). JSON encoding/decoding is the
standard library's and is treated as a faithful transport. -/
structure AuthFile where
  users : List UserCredentials
  permissions : List Acl
deriving DecidableEq, Repr

/-- Embeds `KarapaceAuth.add_user` (src/managers/auth.py:114-126). The external
`workload.mkpasswd` hashing call is passed in as an oracle `mkpw`. -/
def add_user (mkpw : String → String → UserCredentials) (d : AuthDict)
    (username password : String) (replace : Bool) : AuthDict :=
  if pyContains d username && !replace then
    d
  else
    pySet d username ⟨mkpw username password, []⟩

/-- Embeds `KarapaceAuth.add_acl` (src/managers/auth.py:128-150). `role` is a runtime
string (the `Role` Literal annotation is not enforced at runtime); a role other
than `admin`/`user` leaves the freshly built list empty and installs it. -/
def add_acl (d : AuthDict) (username role : String) (subject : Option String) :
    AuthDict :=
  match pyGet d username with
  | none => d
  | some entry =>
    let acls : List Acl :=
      if role == "admin" then
        [⟨username, "Write", ".*"⟩]
      else if role == "user" then
        [⟨username, "Read", "Config:"⟩,
         ⟨username, "Read", "Subject:" ++ pyFormatOpt subject ++ ".*"⟩]
      else
        []
    pySet d username { entry with acls := acls }

/-- Embeds `KarapaceAuth.remove_user` (src/managers/auth.py:152-154). -/
def remove_user (d : AuthDict) (username : String) : AuthDict :=
  pyPop d username

/-- Embeds `KarapaceAuth.write_authfile` (src/managers/auth.py:156-172): users in
dict order, permissions concatenated per user in dict order. -/
def write_authfile (d : AuthDict) : AuthFile :=
  { users := d.map (fun p => p.2.credentials)
    permissions := d.foldr (fun p acc => p.2.acls ++ acc) [] }

/-- Embeds `KarapaceAuth._load_authfile` (src/managers/auth.py:73-112): one dict
assignment per parsed user, each picking up the permissions whose username
matches. -/
def load_authfile (f : AuthFile) : AuthDict :=
  f.users.foldl
    (fun d c =>
      pySet d c.username
        ⟨c, f.permissions.filter (fun a => a.username == c.username)⟩)
    []

/-- Well-formedness maintained by every `KarapaceAuth` operation: keys are
unique, and each entry's credentials and ACLs carry the entry's own key as
their username. -/
def AuthWF (d : AuthDict) : Prop :=
  (d.map (fun p => p.1)).Nodup ∧
    ∀ p ∈ d, p.2.credentials.username = p.1 ∧ ∀ a ∈ p.2.acls, a.username = p.1

/-! ## Cluster status model (src/core/cluster.py, src/core/models.py) -/

/-- Embeds `Status` enum (src/literals.py:69-83), restricted to the members
`ready_to_start` can name. -/
inductive Status where
  | ACTIVE
  | NO_PEER_RELATION
  | SERVICE_NOT_RUNNING
  | KAFKA_NOT_RELATED
  | KAFKA_NOT_CONNECTED
  | KAFKA_TLS_MISMATCH
  | KAFKA_NO_DATA
  | NO_CREDS
deriving DecidableEq, Repr

/-- Runtime errors the Python code can raise on the modelled paths. -/
inductive PyError where
  | typeError
  | attributeError
deriving DecidableEq, Repr

/-- A Python runtime value as far as the modelled `^` expression needs. -/
inductive PyVal where
  | bool (b : Bool)
  | str (s : String)
deriving DecidableEq, Repr

/-- Python `^`: defined on two bools (via int), a `TypeError` between a bool
and a str (neither `bool.__xor__` nor any `str.__rxor__` accepts the other). -/
def pyXor : PyVal → PyVal → Except PyError Bool
  | .bool a, .bool b => .ok (xor a b)
  | _, _ => .error .typeError

/-- Embeds `INTERNAL_USERS` (src/literals.py:24-25). -/
def INTERNAL_USERS : List String := ["operator"]

/-- Embeds `Kafka.topic` (src/core/models.py:227-230). -/
def Kafka.topic (kd : Databag) : String := dbGetD kd "topic" ""

/-- Embeds `Kafka.username` (src/core/models.py:232-235). -/
def Kafka.username (kd : Databag) : String := dbGetD kd "username" ""

/-- Embeds `Kafka.password` (src/core/models.py:237-240). -/
def Kafka.password (kd : Databag) : String := dbGetD kd "password" ""

/-- Embeds `Kafka.bootstrap_servers` (src/core/models.py:242-245). -/
def Kafka.bootstrap_servers (kd : Databag) : String := dbGetD kd "endpoints" ""

/-- Embeds `Kafka.tls` (src/core/models.py:247-250). Annotated `-> bool` in the
source but its body returns `self.data.get("tls", "")`, a string. -/
def Kafka.tls (kd : Databag) : String := dbGetD kd "tls" ""

/-- Embeds `Kafka.kafka_ready` (src/core/models.py:261-272): all of topic, username,
password and endpoints non-empty. -/
def Kafka.kafka_ready (kd : Databag) : Bool :=
  !(Kafka.topic kd == "" || Kafka.username kd == "" ||
    Kafka.password kd == "" || Kafka.bootstrap_servers kd == "")

/-- Embeds `KarapaceCluster.tls_enabled` (src/core/models.py:198-206). -/
def KarapaceCluster.tls_enabled (cd : Databag) : Bool :=
  dbGetD cd "tls" "disabled" == "enabled"

/-- Embeds `KarapaceCluster.internal_user_credentials` (src/core/models.py:178-194):
one (user, password) pair per internal user whose `<user>-password` key is a
non-empty value; the empty dict when any internal user is missing one. -/
def internal_user_credentials (cd : Databag) : List (String × String) :=
  let credentials := INTERNAL_USERS.filterMap (fun user =>
    match pyGet cd (user ++ "-password") with
    | some password => if password == "" then none else some (user, password)
    | none => none)
  if credentials.length ≠ INTERNAL_USERS.length then [] else credentials

/-- The slice of charm state `ClusterContext.ready_to_start` reads: whether
the peer relation exists, the peer app databag, and the Kafka relation's
databag when that relation exists. -/
structure ClusterState where
  peerRelation : Bool
  clusterData : Databag
  kafkaRelation : Option Databag
deriving Repr

/-- Embeds `ClusterContext.ready_to_start` (src/core/cluster.py:196-219), with the
Python runtime made explicit:
* when no Kafka relation exists, constructing the `Kafka` state object
  dereferences `self.relation.id` on `None` (src/core/models.py:56) — an
  `AttributeError`;
* `if not self.kafka:` tests the truthiness of the `Kafka` object itself,
  which defines no `__bool__`/`__len__` and is therefore always truthy, so
  `KAFKA_NOT_RELATED` is never returned on this path;
* `self.cluster.tls_enabled ^ self.kafka.tls` applies `^` to a `bool` and the
  string returned by `Kafka.tls`. -/
def ready_to_start (s : ClusterState) : Except PyError Status :=
  if !s.peerRelation then .ok .NO_PEER_RELATION
  else
    match s.kafkaRelation with
    | none => .error .attributeError
    | some kd =>
      if !Kafka.kafka_ready kd then .ok .KAFKA_NO_DATA
      else
        match pyXor (.bool (KarapaceCluster.tls_enabled s.clusterData))
            (.str (Kafka.tls kd)) with
        | .error e => .error e
        | .ok true => .ok .KAFKA_TLS_MISMATCH
        | .ok false =>
          if (internal_user_credentials s.clusterData).isEmpty then .ok .NO_CREDS
          else .ok .ACTIVE

/-- The spec's reading of `securityMismatch`: the group's encryption flag
differs from the dependency's advertised flag, both read as booleans.
Modelled from the spec's words, for comparison against `ready_to_start`. -/
def specSecurityMismatch (s : ClusterState) : Bool :=
  match s.kafkaRelation with
  | none => KarapaceCluster.tls_enabled s.clusterData
  | some kd =>
    KarapaceCluster.tls_enabled s.clusterData != (dbGetD kd "tls" "" == "enabled")

/-! ## TLS handler model (src/events/tls.py, src/managers/tls.py) -/

/-- The unit's on-disk TLS material (`/etc/karapace/{private.key,cacert.pem,
cert.pem}`), `none` when the file is absent. -/
structure TLSFiles where
  keyfile : Option String
  cafile : Option String
  certfile : Option String
deriving DecidableEq, Repr

/-- Charm state as seen by the TLS handlers: peer relation existence, the
unit's own databag, the peer app databag, the Kafka relation databag (if
related), leadership, and the local TLS files. -/
structure TLSCharmState where
  peerRelation : Bool
  serverData : Databag
  clusterData : Databag
  kafkaRelation : Option Databag
  isLeader : Bool
  files : TLSFiles
deriving Repr

/-- Embeds `KarapaceServer.private_key` (src/core/models.py:128-131). -/
def server_private_key (s : TLSCharmState) : String :=
  dbGetD s.serverData "private-key" ""

/-- Embeds `KarapaceServer.csr` (src/core/models.py:133-136). -/
def server_csr (s : TLSCharmState) : String :=
  dbGetD s.serverData "csr" ""

/-- Embeds `TLSManager.set_server_key` (src/managers/tls.py:29-37): writes the
unit's private key to disk, a no-op when the databag has none. -/
def set_server_key (s : TLSCharmState) : TLSCharmState :=
  if server_private_key s == "" then s
  else { s with files := { s.files with keyfile := some (server_private_key s) } }

/-- Embeds `TLSManager.set_ca` (src/managers/tls.py:39-53): its first statement reads
`self.context.kafka.broker_ca`, but the `Kafka` state class
(src/core/models.py:214-272) defines no `broker_ca` attribute — an
`AttributeError` at runtime (and an `AttributeError` on `self.relation.id`
already when no Kafka relation exists). -/
def set_ca (_ : TLSCharmState) : Except PyError TLSCharmState :=
  .error .attributeError

/-- Embeds `KarapaceServer.certificate` (src/core/models.py:138-141). -/
def server_certificate (s : TLSCharmState) : String :=
  dbGetD s.serverData "certificate" ""

/-- Embeds `TLSManager.set_certificate` (src/managers/tls.py:55-63): writes the
unit's certificate to disk, a no-op when the databag has none. -/
def set_certificate (s : TLSCharmState) : TLSCharmState :=
  if server_certificate s == "" then s
  else { s with files := { s.files with certfile := some (server_certificate s) } }

/-- Embeds `TLSManager.remove_stores` (src/managers/tls.py:67-76): removes every
`*.pem`/`*.key` under the config dir (`workload.exec` runs with
`shell=True`, so the glob expands). -/
def remove_stores (s : TLSCharmState) : TLSCharmState :=
  { s with files := ⟨none, none, none⟩ }

/-- Embeds `KarapaceCluster.update` (src/core/models.py:163-176) for the keys the TLS
handlers write: `tls` is neither a secret key nor `relation-` prefixed, so it
goes through `update_relation_data`; an empty value deletes the key. No-op
when the peer relation is absent. -/
def cluster_update (s : TLSCharmState) (key value : String) : TLSCharmState :=
  if !s.peerRelation then s
  else if value == "" then { s with clusterData := pyPop s.clusterData key }
  else { s with clusterData := pySet s.clusterData key value }

/-- Outcome of an observed event handler. -/
inductive HandlerResult where
  | completed
  | deferred
  | errored (e : PyError)
deriving DecidableEq, Repr

/-- A `CertificateAvailableEvent` from the tls_certificates interface. -/
structure CertEvent where
  certificate_signing_request : String
  certificate : String
  ca : String
deriving DecidableEq, Repr

/-- Embeds `TLSHandler._on_certificate_available` (src/events/tls.py:90-107): defer
without a peer relation; return untouched on a CSR that does not equal the
unit's outstanding one; otherwise store the certificate and CA in the unit
databag, write the key file, then crash inside `set_ca` (see `set_ca`). -/
def on_certificate_available (s : TLSCharmState) (ev : CertEvent) :
    TLSCharmState × HandlerResult :=
  if !s.peerRelation then (s, .deferred)
  else if ev.certificate_signing_request != server_csr s then (s, .completed)
  else
    let s1 := { s with
      serverData := relationStateUpdate s.serverData [("certificate", ev.certificate)] }
    let s2 := { s1 with
      serverData := relationStateUpdate s1.serverData [("ca-cert", ev.ca)] }
    let s3 := set_server_key s2
    match set_ca s3 with
    | .error e => (s3, .errored e)
    | .ok s4 => (set_certificate s4, .completed)

/-- Embeds `TLSHandler._tls_relation_broken` (src/events/tls.py:76-88): delete `csr`,
`certificate` and `ca-cert` from the unit databag, wipe the local stores, and
(leader only) delete the cluster `tls` flag. -/
def tls_relation_broken (s : TLSCharmState) : TLSCharmState :=
  let s1 := { s with
    serverData := relationStateUpdate s.serverData [("csr", "")] }
  let s2 := { s1 with
    serverData := relationStateUpdate s1.serverData [("certificate", "")] }
  let s3 := { s2 with
    serverData := relationStateUpdate s2.serverData [("ca-cert", "")] }
  let s4 := remove_stores s3
  if !s.isLeader then s4 else cluster_update s4 "tls" ""

/-! ## Password rotation action (src/events/password_actions.py) -/

/-- Charm state as seen by `_set_password_action`: leadership, the state
slice `charm.healthy` recomputes (`ready_to_start` reads the peer relation,
the peer app databag and the Kafka relation databag), the outcome of the
external `workload.active()` snap probe, the in-memory auth dict, and the
authfile on disk. -/
structure ActionCharmState where
  isLeader : Bool
  peerRelation : Bool
  clusterData : Databag
  kafkaRelation : Option Databag
  workloadActive : Bool
  authDict : AuthDict
  authFile : Option AuthFile
deriving Repr

/-- The cluster-state slice of an action state. -/
def ActionCharmState.clusterState (s : ActionCharmState) : ClusterState :=
  ⟨s.peerRelation, s.clusterData, s.kafkaRelation⟩

/-- Embeds `KarapaceCharm.healthy` (src/charm.py:137-154): recompute
`ready_to_start` (any exception it raises propagates to the caller), require
the resulting unit status to be Active, then require the live workload probe
(`workload.active()`, the external snap query, carried as `workloadActive`). -/
def charm_healthy (s : ActionCharmState) : Except PyError Bool :=
  match ready_to_start s.clusterState with
  | .error e => .error e
  | .ok st =>
    if st = Status.ACTIVE then
      if s.workloadActive then .ok true else .ok false
    else .ok false

/-- Result of a Juju action: `event.fail(msg)` or `event.set_results`. -/
inductive ActionResult where
  | failed (msg : String)
  | results (username password : String)
deriving DecidableEq, Repr

/-- Embeds `PasswordActionEvents._set_password_action`
(src/events/password_actions.py:34-72): guard on leadership, on
`charm.healthy` (whose exceptions propagate) and on the internal-user set;
reject a new password already present among the internal credentials;
otherwise replace the user, grant the admin ACL, write the authfile and store
the password in the app databag (a plain `relation_data.update`, line 71).
`generated` stands for the random password used when the action supplies
none. -/
def set_password_action (mkpw : String → String → UserCredentials)
    (generated : String) (s : ActionCharmState) (username : String)
    (passwordParam : Option String) :
    Except PyError (ActionCharmState × ActionResult) :=
  if !s.isLeader then
    .ok (s, .failed "Password rotation must be called on leader unit")
  else
    match charm_healthy s with
    | .error e => .error e
    | .ok healthy =>
      if !healthy then
        .ok (s, .failed "Unit is not healthy")
      else if !(INTERNAL_USERS.contains username) then
        .ok (s, .failed "Can only update internal charm users")
      else
        let new_password := passwordParam.getD generated
        if (internal_user_credentials s.clusterData).any
            (fun p => p.2 == new_password) then
          .ok (s, .failed "Password already exists, please choose a different password.")
        else
          let d1 := add_user mkpw s.authDict username new_password true
          let d2 := add_acl d1 username "admin" none
          .ok ({ s with
              authDict := d2
              authFile := some (write_authfile d2)
              clusterData := pySet s.clusterData (username ++ "-password") new_password },
            .results username new_password)

/-! ## Concrete inputs used by counterexamples and witnesses -/

/-- Cluster state with complete Kafka facts, dependency TLS flag `enabled`,
and the group's own TLS flag unset. -/
def mismatchClusterState : ClusterState :=
  { peerRelation := true
    clusterData := [("operator-password", "pw0")]
    kafkaRelation := some [("topic", "_schemas"), ("username", "kafka-user"),
      ("password", "kafka-pw"), ("endpoints", "10.10.10.10:9092"), ("tls", "enabled")] }

/-- Cluster state whose Kafka facts are incomplete (username missing) while
the TLS flags disagree (group `enabled`, dependency unset). -/
def noDataMismatchState : ClusterState :=
  { peerRelation := true
    clusterData := [("tls", "enabled"), ("operator-password", "pw0")]
    kafkaRelation := some [("topic", "_schemas"), ("password", "kafka-pw"),
      ("endpoints", "10.10.10.10:9092")] }

/-- Credentials of a sample user `bob`. -/
def bobCreds : UserCredentials := ⟨"bob", "sha512", "salt-b", "hash-b"⟩

/-- Auth entry of `bob` holding one existing permission. -/
def bobEntry : AuthDictEntry := ⟨bobCreds, [⟨"bob", "Read", "Config:"⟩]⟩

/-- One-user auth dict. -/
def bobDict : AuthDict := [("bob", bobEntry)]

/-- Well-formed two-user auth dict (internal user plus one tenant). -/
def sampleAuthDict : AuthDict :=
  [("operator", ⟨⟨"operator", "sha512", "s1", "h1"⟩, [⟨"operator", "Write", ".*"⟩]⟩),
   ("relation-7", ⟨⟨"relation-7", "sha512", "s2", "h2"⟩,
     [⟨"relation-7", "Read", "Config:"⟩, ⟨"relation-7", "Read", "Subject:test-topic.*"⟩]⟩)]

/-- TLS charm state holding an outstanding CSR `CSR-A`. -/
def pendingCsrState : TLSCharmState :=
  { peerRelation := true
    serverData := [("hostname", "node1"), ("private-key", "KEYPEM"), ("csr", "CSR-A")]
    clusterData := [("tls", "enabled")]
    kafkaRelation := some []
    isLeader := true
    files := ⟨some "KEYPEM", none, none⟩ }

/-- A certificate-available event carrying a stale CSR. -/
def staleCsrEvent : CertEvent := ⟨"CSR-OLD", "CERTPEM", "CAPEM"⟩

/-- TLS charm state of a unit with an issued certificate. -/
def issuedState : TLSCharmState :=
  { peerRelation := true
    serverData := [("hostname", "node1"), ("private-key", "KEYPEM"),
      ("csr", "CSR-A"), ("certificate", "CERTPEM"), ("ca-cert", "CAPEM")]
    clusterData := [("tls", "enabled")]
    kafkaRelation := some []
    isLeader := true
    files := ⟨some "KEYPEM", some "CAPEM", some "CERTPEM"⟩ }

/-- Leader state whose internal `operator` user already has password
`secretX` published, the peer relation up, every Kafka fact advertised and
the workload live — the claim's healthy-looking rotation scenario. -/
def rotateState : ActionCharmState :=
  { isLeader := true
    peerRelation := true
    clusterData := [("operator-password", "secretX")]
    kafkaRelation := some [("topic", "_schemas"), ("username", "kafka-user"),
      ("password", "kafka-pw"), ("endpoints", "10.10.10.10:9092"), ("tls", "enabled")]
    workloadActive := true
    authDict := [("operator", ⟨⟨"operator", "sha512", "s1", "h1"⟩,
      [⟨"operator", "Write", ".*"⟩]⟩)]
    authFile := none }

/-- Deterministic stand-in for the external `mkpasswd` hashing call. -/
def mkpwStub : String → String → UserCredentials :=
  fun u _ => ⟨u, "sha512", "stub-salt", "stub-hash"⟩

/-! ## Association-list lemmas -/

lemma pyGet_nil {α : Type} (k : String) : pyGet ([] : List (String × α)) k = none := rfl

lemma pyGet_cons {α : Type} (p : String × α) (d : List (String × α)) (k : String) :
    pyGet (p :: d) k = if p.1 == k then some p.2 else pyGet d k := by
  simp only [pyGet, List.find?]
  cases h : (p.1 == k) <;> simp [h]

lemma find?_map_pySet {α : Type} (d : List (String × α)) (k : String) (v : α)
    (h : (d.find? (fun p => p.1 == k)).isSome) :
    ((d.map (fun p => if p.1 == k then (k, v) else p)).find?
      (fun p => p.1 == k)) = some (k, v) := by
  induction d with
  | nil => simp [List.find?] at h
  | cons q t ih =>
    by_cases hq : (q.1 == k) = true
    · simp [List.find?, hq]
    · have hq' : (q.1 == k) = false := by simpa [Bool.not_eq_true] using hq
      simp only [List.find?, hq'] at h
      simpa [List.find?, hq'] using ih h

lemma pyGet_pySet_self {α : Type} (d : List (String × α)) (k : String) (v : α) :
    pyGet (pySet d k v) k = some v := by
  unfold pySet
  by_cases h : (d.find? (fun p => p.1 == k)).isSome
  · rw [if_pos h]
    unfold pyGet
    rw [find?_map_pySet d k v h]
    rfl
  · rw [if_neg h]
    have hnone : d.find? (fun p => p.1 == k) = none := by
      cases hf : d.find? (fun p => p.1 == k) with
      | none => rfl
      | some q => rw [hf] at h; simp at h
    unfold pyGet
    rw [List.find?_append, hnone]
    simp [List.find?]

lemma pyContains_pySet_self {α : Type} (d : List (String × α)) (k : String) (v : α) :
    pyContains (pySet d k v) k = true := by
  simp [pyContains, pyGet_pySet_self]

lemma pyGet_pyPop_self {α : Type} (d : List (String × α)) (k : String) :
    pyGet (pyPop d k) k = none := by
  induction d with
  | nil => rfl
  | cons q t ih =>
    by_cases hq : (q.1 == k) = true
    · simpa [pyPop, List.filter, bne, hq] using ih
    · have hq' : (q.1 == k) = false := by simpa [Bool.not_eq_true] using hq
      simp only [pyPop, List.filter, bne, hq', Bool.not_false]
      simpa [pyGet_cons, hq'] using ih

lemma pyGet_pyPop_ne {α : Type} (d : List (String × α)) (k k' : String)
    (h : k' ≠ k) : pyGet (pyPop d k) k' = pyGet d k' := by
  induction d with
  | nil => rfl
  | cons q t ih =>
    by_cases hq : (q.1 == k) = true
    · have hqk : q.1 = k := by simpa using hq
      have hq' : (q.1 == k') = false := by
        simp [hqk]; exact fun hc => h hc.symm
      simp only [pyPop, List.filter, bne, hq, Bool.not_true]
      rw [pyGet_cons, hq']
      simpa [pyPop] using ih
    · have hq' : (q.1 == k) = false := by simpa [Bool.not_eq_true] using hq
      simp only [pyPop, List.filter, bne, hq', Bool.not_false]
      rw [pyGet_cons, pyGet_cons]
      cases hk' : (q.1 == k') <;> simp [hk']
      · simpa [pyPop] using ih

/-! ## Claim theorems -/

/-- Claim C1. The claim fails on the code: with every required Kafka fact
present, the dependency's TLS flag `enabled` and the group's flag unset,
`ready_to_start` does not return the TLS-mismatch status — it raises a
`TypeError`, because `Kafka.tls` returns the raw databag string (despite its
`-> bool` annotation and docstring) and Python's `^` rejects `bool ^ str`.
The second conjunct records that the spec-level mismatch condition does hold
at this state. -/
theorem ready_to_start_tls_mismatch_raises :
    ready_to_start mismatchClusterState = .error .typeError ∧
    specSecurityMismatch mismatchClusterState = true :=
  ⟨rfl, rfl⟩

/-- Claim C2 counterexample: a state where two preconditions are unmet at
once — the Kafka facts are incomplete and the TLS flags disagree — yet
`ready_to_start` reports the generic missing-data status, not the
TLS-mismatch one, refuting the claimed priority of the mismatch status. -/
theorem ready_to_start_priority_counterexample :
    ready_to_start noDataMismatchState = .ok .KAFKA_NO_DATA ∧
    specSecurityMismatch noDataMismatchState = true ∧
    Status.KAFKA_NO_DATA ≠ Status.KAFKA_TLS_MISMATCH :=
  ⟨rfl, rfl, by decide⟩

/-- Claim C2 as amended: the status checks run in the source's fixed order
(peer relation, Kafka related, Kafka facts, TLS flags, credentials), so
whenever the Kafka facts are incomplete the missing-data status is returned
regardless of any TLS-flag disagreement or missing credentials — the generic
not-ready statuses take priority over the TLS-mismatch status, not the other
way around. -/
theorem ready_to_start_no_data_priority (cd kd : Databag)
    (h : Kafka.kafka_ready kd = false) :
    ready_to_start ⟨true, cd, some kd⟩ = .ok .KAFKA_NO_DATA := by
  simp [ready_to_start, h]

/-- Witness for the amended C2 theorem at a concrete state. -/
theorem ready_to_start_no_data_priority_witness :
    ready_to_start ⟨true, [("tls", "enabled")], some []⟩ = .ok .KAFKA_NO_DATA :=
  ready_to_start_no_data_priority [("tls", "enabled")] [] rfl

/-- Claim C4 counterexample: a role outside admin/user (here `superadmin`) is
not an input-validation error leaving the list unchanged — `add_acl` returns
normally and silently replaces bob's permission list with the empty list. -/
theorem add_acl_unknown_role_counterexample :
    add_acl bobDict "bob" "superadmin" none ≠ bobDict ∧
    add_acl bobDict "bob" "superadmin" none = [("bob", ⟨bobCreds, []⟩)] := by
  constructor
  · decide
  · decide

/-- Claim C4 as amended: `add_acl` fully replaces an existing user's
permission list — role admin installs exactly one Write-all rule, role user
installs exactly the Config read rule and the scoped Subject read rule, and
any role outside admin/user silently replaces the list with the empty list
(no validation error is raised). -/
theorem add_acl_role_policy (d : AuthDict) (u : String) (entry : AuthDictEntry)
    (subject : Option String) (spat role : String)
    (h : pyGet d u = some entry) :
    pyGet (add_acl d u "admin" subject) u
      = some ⟨entry.credentials, [⟨u, "Write", ".*"⟩]⟩ ∧
    pyGet (add_acl d u "user" (some spat)) u
      = some ⟨entry.credentials,
          [⟨u, "Read", "Config:"⟩, ⟨u, "Read", "Subject:" ++ spat ++ ".*"⟩]⟩ ∧
    (role ≠ "admin" → role ≠ "user" →
      pyGet (add_acl d u role subject) u = some ⟨entry.credentials, []⟩) := by
  refine ⟨?_, ?_, fun h1 h2 => ?_⟩
  · unfold add_acl
    rw [h]
    simp [pyGet_pySet_self]
  · unfold add_acl
    rw [h]
    simp [pyGet_pySet_self, pyFormatOpt]
  · unfold add_acl
    rw [h]
    have e1 : (role == "admin") = false := by simpa using h1
    have e2 : (role == "user") = false := by simpa using h2
    simp [e1, e2, pyGet_pySet_self]

/-- Witness for the amended C4 theorem: scenario B's user role and a rogue
role, both at a concrete dict. -/
theorem add_acl_role_policy_witness :
    pyGet (add_acl bobDict "bob" "user" (some "test-topic")) "bob"
      = some ⟨bobCreds,
          [⟨"bob", "Read", "Config:"⟩,
           ⟨"bob", "Read", "Subject:" ++ "test-topic" ++ ".*"⟩]⟩ ∧
    pyGet (add_acl bobDict "bob" "superadmin" none) "bob" = some ⟨bobCreds, []⟩ :=
  ⟨(add_acl_role_policy bobDict "bob" bobEntry none "test-topic" "superadmin" rfl).2.1,
   (add_acl_role_policy bobDict "bob" bobEntry none "test-topic" "superadmin" rfl).2.2
     (by decide) (by decide)⟩

/-- Claim C5: principal creation is idempotent — a second `add_user` with the
same username and password and `replace=false` (whatever the external hashing
call would return either time) leaves the auth dict exactly as after the
first call; in particular an existing username is a no-op. -/
theorem add_user_idempotent (mk1 mk2 : String → String → UserCredentials)
    (d : AuthDict) (u p : String) :
    add_user mk2 (add_user mk1 d u p false) u p false = add_user mk1 d u p false := by
  unfold add_user
  by_cases h : pyContains d u = true
  · simp [h]
  · have h' : pyContains d u = false := by simpa [Bool.not_eq_true] using h
    simp [h', pyContains_pySet_self]

/-- Claim C10: `add_acl` for a username absent from the auth dict is a silent
no-op — the dict is returned unchanged, no entry is created, no error is
raised. -/
theorem add_acl_missing_user_noop (d : AuthDict) (u role : String)
    (subject : Option String) (h : pyGet d u = none) :
    add_acl d u role subject = d := by
  unfold add_acl
  rw [h]

/-- Witness for the C10 theorem at a concrete dict and absent user. -/
theorem add_acl_missing_user_noop_witness :
    add_acl bobDict "alice" "admin" none = bobDict :=
  add_acl_missing_user_noop bobDict "alice" "admin" none rfl

/-- Claim C3: a certificate-available event whose signing request differs
from the unit's outstanding CSR installs nothing — the whole charm state
(unit databag certificate/CA fields and the on-disk TLS files included) is
returned exactly as it was, so installation can only happen on an exact CSR
match. -/
theorem certificate_mismatch_not_installed (s : TLSCharmState) (ev : CertEvent)
    (h : ev.certificate_signing_request ≠ server_csr s) :
    (on_certificate_available s ev).1 = s := by
  unfold on_certificate_available
  cases hp : s.peerRelation
  · simp
  · have hb : (ev.certificate_signing_request != server_csr s) = true := by
      simpa [bne_iff_ne] using h
    simp [hb]

/-- Witness for the C3 theorem: a stale-CSR event against a unit waiting on
`CSR-A`. -/
theorem certificate_mismatch_not_installed_witness :
    (on_certificate_available pendingCsrState staleCsrEvent).1 = pendingCsrState :=
  certificate_mismatch_not_installed pendingCsrState staleCsrEvent (by decide)

/-- Helper: the relation-broken handler's effect on the unit databag is
exactly three deletions. -/
lemma tls_relation_broken_serverData (s : TLSCharmState) :
    (tls_relation_broken s).serverData =
      pyPop (pyPop (pyPop s.serverData "csr") "certificate") "ca-cert" := by
  rcases s with ⟨peer, sd, cd, kr, lead, fl⟩
  cases lead <;> cases peer <;> rfl

/-- Claim C9: on loss of the certificates relation the unit's `csr`,
`certificate` and `ca-cert` databag fields are removed, `private-key` is left
unchanged, and no other field of the unit databag is mutated. -/
theorem tls_relation_broken_wipes_certs (s : TLSCharmState) :
    pyGet (tls_relation_broken s).serverData "csr" = none ∧
    pyGet (tls_relation_broken s).serverData "certificate" = none ∧
    pyGet (tls_relation_broken s).serverData "ca-cert" = none ∧
    pyGet (tls_relation_broken s).serverData "private-key"
      = pyGet s.serverData "private-key" ∧
    ∀ k, k ≠ "csr" → k ≠ "certificate" → k ≠ "ca-cert" →
      pyGet (tls_relation_broken s).serverData k = pyGet s.serverData k := by
  simp only [tls_relation_broken_serverData]
  refine ⟨?_, ?_, ?_, ?_, ?_⟩
  · rw [pyGet_pyPop_ne _ _ _ (by decide), pyGet_pyPop_ne _ _ _ (by decide)]
    exact pyGet_pyPop_self _ _
  · rw [pyGet_pyPop_ne _ _ _ (by decide)]
    exact pyGet_pyPop_self _ _
  · exact pyGet_pyPop_self _ _
  · rw [pyGet_pyPop_ne _ _ _ (by decide), pyGet_pyPop_ne _ _ _ (by decide),
      pyGet_pyPop_ne _ _ _ (by decide)]
  · intro k h1 h2 h3
    rw [pyGet_pyPop_ne _ _ _ h3, pyGet_pyPop_ne _ _ _ h2, pyGet_pyPop_ne _ _ _ h1]

/-- Witness for the C9 theorem: at an issued-certificate unit state, the CSR
is gone afterwards while an unrelated field survives. -/
theorem tls_relation_broken_wipes_certs_witness :
    pyGet (tls_relation_broken issuedState).serverData "csr" = none ∧
    pyGet (tls_relation_broken issuedState).serverData "hostname" = some "node1" := by
  refine ⟨(tls_relation_broken_wipes_certs issuedState).1, ?_⟩
  have h := (tls_relation_broken_wipes_certs issuedState).2.2.2.2 "hostname"
    (by decide) (by decide) (by decide)
  rw [h]
  rfl

/-- Helper: `ready_to_start` can never return the Active status — every path
that would reach it raises first (`TypeError` at the xor with complete Kafka
facts, `AttributeError` with no Kafka relation), and the remaining paths
return one of the waiting statuses. -/
lemma ready_to_start_never_active (s : ClusterState) :
    ready_to_start s ≠ .ok Status.ACTIVE := by
  rcases s with ⟨peer, cd, kr⟩
  cases peer
  · simp [ready_to_start]
  · cases kr with
    | none => simp [ready_to_start]
    | some kd =>
      by_cases hk : Kafka.kafka_ready kd = true
      · simp [ready_to_start, hk, pyXor]
      · have hk' : Kafka.kafka_ready kd = false := by
          simpa [Bool.not_eq_true] using hk
        simp [ready_to_start, hk']

/-- Helper: `charm.healthy` can never come back `True` — it recomputes
`ready_to_start`, which raises or returns a non-Active status. -/
lemma charm_healthy_never_true (s : ActionCharmState) :
    charm_healthy s ≠ .ok true := by
  unfold charm_healthy
  cases h : ready_to_start s.clusterState with
  | error e => simp
  | ok st =>
    by_cases hst : st = Status.ACTIVE
    · exact absurd (hst ▸ h) (ready_to_start_never_active s.clusterState)
    · simp [hst]

/-- Helper: every run of the set-password action either raises the exception
propagated out of `charm.healthy`, or fails at the leadership guard, or fails
at the health guard, with the state untouched — the later guards are
unreachable. -/
lemma set_password_action_cases (mkpw : String → String → UserCredentials)
    (generated : String) (s : ActionCharmState) (u : String)
    (pwOpt : Option String) :
    set_password_action mkpw generated s u pwOpt =
        .ok (s, .failed "Password rotation must be called on leader unit") ∨
    set_password_action mkpw generated s u pwOpt =
        .ok (s, .failed "Unit is not healthy") ∨
    ∃ e, set_password_action mkpw generated s u pwOpt = .error e := by
  unfold set_password_action
  by_cases hL : s.isLeader = true
  · cases hch : charm_healthy s with
    | error e =>
      right; right
      exact ⟨e, by simp [hL, hch]⟩
    | ok b =>
      cases b
      · right; left
        simp [hL, hch]
      · exact absurd hch (charm_healthy_never_true s)
  · left
    have hL' : s.isLeader = false := by simpa [Bool.not_eq_true] using hL
    simp [hL']

/-- Claim C8. The claim fails on the code: the reuse-validation path of
`_set_password_action` is dead code. The action guards on `charm.healthy`,
which recomputes `ready_to_start`; that raises (`TypeError` at the xor once
all Kafka facts are advertised, `AttributeError` with no Kafka relation) or
returns a non-Active status, so the guard can never pass. At the claim's own
scenario — healthy-looking leader, `operator` already on `secretX`, rotation
to `secretX` — the action crashes with the `TypeError` instead of failing
with the reuse-validation message; in general no input ever produces the
reuse-validation failure, and no rotation ever succeeds either. -/
theorem set_password_reuse_check_dead :
    set_password_action mkpwStub "gen-pw" rotateState "operator" (some "secretX")
      = .error .typeError ∧
    (∀ (mkpw : String → String → UserCredentials) (generated : String)
      (s : ActionCharmState) (u : String) (pwOpt : Option String)
      (s' : ActionCharmState),
      set_password_action mkpw generated s u pwOpt ≠
        .ok (s', .failed "Password already exists, please choose a different password.")) ∧
    (∀ (mkpw : String → String → UserCredentials) (generated : String)
      (s : ActionCharmState) (u : String) (pwOpt : Option String)
      (s' : ActionCharmState) (un pw : String),
      set_password_action mkpw generated s u pwOpt ≠ .ok (s', .results un pw)) := by
  refine ⟨rfl, ?_, ?_⟩
  · intro mkpw generated s u pwOpt s' h
    rcases set_password_action_cases mkpw generated s u pwOpt with hc | hc | ⟨e, hc⟩ <;>
      rw [hc] at h <;> simp at h
  · intro mkpw generated s u pwOpt s' un pw h
    rcases set_password_action_cases mkpw generated s u pwOpt with hc | hc | ⟨e, hc⟩ <;>
      rw [hc] at h <;> simp at h

/-- Witness for the C8 theorem: the concrete crash and the unreachability of
the reuse failure at the claim's scenario. -/
theorem set_password_reuse_check_dead_witness :
    set_password_action mkpwStub "gen-pw" rotateState "operator" (some "secretX")
      = .error .typeError ∧
    set_password_action mkpwStub "gen-pw" rotateState "operator" (some "secretX") ≠
      .ok (rotateState,
        .failed "Password already exists, please choose a different password.") :=
  ⟨set_password_reuse_check_dead.1,
   set_password_reuse_check_dead.2.1 mkpwStub "gen-pw" rotateState "operator"
     (some "secretX") rotateState⟩

/-! ## Lemmas about the rendered authfile -/

lemma authWF_tail {q : String × AuthDictEntry} {t : AuthDict}
    (h : AuthWF (q :: t)) : AuthWF t := by
  refine ⟨?_, fun p hp => h.2 p (List.mem_cons_of_mem q hp)⟩
  have h1 := h.1
  rw [List.map_cons] at h1
  exact (List.nodup_cons.mp h1).2

lemma authWF_head_fresh {q : String × AuthDictEntry} {t : AuthDict}
    (h : AuthWF (q :: t)) : q.1 ∉ t.map (fun r => r.1) := by
  have h1 := h.1
  rw [List.map_cons] at h1
  exact (List.nodup_cons.mp h1).1

lemma write_permissions_cons (q : String × AuthDictEntry) (t : AuthDict) :
    (write_authfile (q :: t)).permissions =
      q.2.acls ++ (write_authfile t).permissions := rfl

lemma mem_write_permissions {d : AuthDict} {a : Acl} :
    a ∈ (write_authfile d).permissions ↔ ∃ p ∈ d, a ∈ p.2.acls := by
  induction d with
  | nil => simp [write_authfile]
  | cons q t ih =>
    rw [write_permissions_cons, List.mem_append, ih]
    constructor
    · rintro (hq | ⟨p, hp, hap⟩)
      · exact ⟨q, List.mem_cons_self q t, hq⟩
      · exact ⟨p, List.mem_cons_of_mem q hp, hap⟩
    · rintro ⟨p, hp, hap⟩
      rcases List.mem_cons.mp hp with rfl | hpt
      · exact Or.inl hap
      · exact Or.inr ⟨p, hpt, hap⟩

lemma write_permissions_filter (d : AuthDict) (h : AuthWF d)
    (p : String × AuthDictEntry) (hp : p ∈ d) :
    (write_authfile d).permissions.filter (fun a => a.username == p.1) =
      p.2.acls := by
  induction d with
  | nil => cases hp
  | cons q t ih =>
    have hwft : AuthWF t := authWF_tail h
    have hq1 : q.1 ∉ t.map (fun r => r.1) := authWF_head_fresh h
    rw [write_permissions_cons, List.filter_append]
    rcases List.mem_cons.mp hp with heq | hpt
    · rw [heq]
      have e1 : q.2.acls.filter (fun a => a.username == q.1) = q.2.acls :=
        List.filter_eq_self.mpr (fun a ha => by
          simp [(h.2 q (List.mem_cons_self q t)).2 a ha])
      have e2 : (write_authfile t).permissions.filter
          (fun a => a.username == q.1) = [] := by
        apply List.filter_eq_nil_iff.mpr
        intro a ha
        rcases mem_write_permissions.mp ha with ⟨r, hr, har⟩
        have hu : a.username = r.1 := (hwft.2 r hr).2 a har
        have hne : r.1 ≠ q.1 := fun e => hq1 (e ▸ List.mem_map_of_mem _ hr)
        simp [hu, hne]
      rw [e1, e2, List.append_nil]
    · have hne : q.1 ≠ p.1 := fun e => hq1 (e ▸ List.mem_map_of_mem _ hpt)
      have e1 : q.2.acls.filter (fun a => a.username == p.1) = [] := by
        apply List.filter_eq_nil_iff.mpr
        intro a ha
        have hu : a.username = q.1 := (h.2 q (List.mem_cons_self q t)).2 a ha
        simp [hu, hne]
      rw [e1, List.nil_append]
      exact ih hwft hpt

lemma pySet_fresh {α : Type} (d : List (String × α)) (k : String) (v : α)
    (h : pyGet d k = none) : pySet d k v = d ++ [(k, v)] := by
  have hf : d.find? (fun p => p.1 == k) = none := by
    cases hf2 : d.find? (fun p => p.1 == k) with
    | none => rfl
    | some q => unfold pyGet at h; rw [hf2] at h; simp at h
  unfold pySet
  rw [hf]
  simp

lemma pyGet_append_left_none {α : Type} (d1 d2 : List (String × α)) (k : String)
    (h : pyGet d1 k = none) : pyGet (d1 ++ d2) k = pyGet d2 k := by
  have hf : d1.find? (fun p => p.1 == k) = none := by
    cases hf2 : d1.find? (fun p => p.1 == k) with
    | none => rfl
    | some q => unfold pyGet at h; rw [hf2] at h; simp at h
  unfold pyGet
  rw [List.find?_append, hf]
  simp

lemma foldl_pySet_fresh (f : UserCredentials → AuthDictEntry) :
    ∀ (us : List UserCredentials) (acc : AuthDict),
      (us.map (fun c => c.username)).Nodup →
      (∀ c ∈ us, pyGet acc c.username = none) →
      us.foldl (fun dd c => pySet dd c.username (f c)) acc
        = acc ++ us.map (fun c => (c.username, f c)) := by
  intro us
  induction us with
  | nil => intro acc _ _; simp
  | cons c t ih =>
    intro acc hnd hfresh
    rw [List.foldl_cons,
      pySet_fresh acc c.username (f c) (hfresh c (List.mem_cons_self c t))]
    have hnd' : (t.map (fun c => c.username)).Nodup := by
      rw [List.map_cons] at hnd
      exact (List.nodup_cons.mp hnd).2
    have hcnot : c.username ∉ t.map (fun c => c.username) := by
      rw [List.map_cons] at hnd
      exact (List.nodup_cons.mp hnd).1
    have hfresh' : ∀ c' ∈ t, pyGet (acc ++ [(c.username, f c)]) c'.username = none := by
      intro c' hc'
      rw [pyGet_append_left_none _ _ _ (hfresh c' (List.mem_cons_of_mem c hc'))]
      have hne : c'.username ≠ c.username :=
        fun e => hcnot (e ▸ List.mem_map_of_mem _ hc')
      have hbe : (c.username == c'.username) = false :=
        beq_eq_false_iff_ne.mpr (fun e => hne e.symm)
      simp [pyGet, List.find?, hbe]
    rw [ih (acc ++ [(c.username, f c)]) hnd' hfresh']
    simp

/-! ## The auth well-formedness invariant is maintained by every operation

These lemmas justify reading `AuthWF` as the definition of a reachable
authorization state: `add_user` (whose real hashing CLI is invoked with
`-u username` and echoes that username back), `add_acl` and `remove_user`
all preserve it, and the empty initial state satisfies it trivially. -/

lemma pyGet_isSome_iff_mem_keys {α : Type} (d : List (String × α)) (k : String) :
    (pyGet d k).isSome ↔ k ∈ d.map (fun p => p.1) := by
  induction d with
  | nil => simp [pyGet]
  | cons q t ih =>
    rw [pyGet_cons]
    by_cases hq : (q.1 == k) = true
    · have hqe : q.1 = k := by simpa using hq
      simp [hq, hqe]
    · have hq' : (q.1 == k) = false := by simpa [Bool.not_eq_true] using hq
      have hne : k ≠ q.1 := fun e => by simp [e] at hq'
      simp [hq', ih, hne]

lemma mem_of_pyGet_some {α : Type} (d : List (String × α)) (k : String) (v : α)
    (h : pyGet d k = some v) : (k, v) ∈ d := by
  unfold pyGet at h
  cases hf : d.find? (fun p => p.1 == k) with
  | none => rw [hf] at h; simp at h
  | some q =>
    rw [hf] at h
    have hq : q ∈ d := List.mem_of_find?_eq_some hf
    have h1 : q.1 = k := by simpa using List.find?_some hf
    have h2 : q.2 = v := by simpa using h
    have hqe : q = (k, v) := by
      cases q
      simp_all
    rwa [hqe] at hq

lemma keys_pySet_mem {α : Type} (d : List (String × α)) (k : String) (v : α)
    (h : (pyGet d k).isSome) :
    (pySet d k v).map (fun p => p.1) = d.map (fun p => p.1) := by
  have hf : (d.find? (fun p => p.1 == k)).isSome = true := by
    unfold pyGet at h
    cases hf2 : d.find? (fun p => p.1 == k) with
    | none => rw [hf2] at h; simp at h
    | some q => rfl
  unfold pySet
  rw [if_pos hf, List.map_map]
  apply List.map_congr_left
  intro p _
  by_cases hpk : (p.1 == k) = true
  · have : p.1 = k := by simpa using hpk
    simp [Function.comp, hpk, this]
  · have hpk' : (p.1 == k) = false := by simpa [Bool.not_eq_true] using hpk
    simp [Function.comp, hpk']

lemma mem_pySet_mem {α : Type} (d : List (String × α)) (k : String) (v : α)
    (hk : (pyGet d k).isSome) (q : String × α) (hq : q ∈ pySet d k v) :
    q = (k, v) ∨ q ∈ d := by
  have hf : (d.find? (fun p => p.1 == k)).isSome = true := by
    unfold pyGet at hk
    cases hf2 : d.find? (fun p => p.1 == k) with
    | none => rw [hf2] at hk; simp at hk
    | some r => rfl
  unfold pySet at hq
  rw [if_pos hf, List.mem_map] at hq
  obtain ⟨p0, hp0, rfl⟩ := hq
  by_cases hpk : (p0.1 == k) = true
  · simp [hpk]
  · have hpk' : (p0.1 == k) = false := by simpa [Bool.not_eq_true] using hpk
    simp [hpk']
    exact Or.inr hp0

lemma authWF_nil : AuthWF [] :=
  ⟨List.nodup_nil, fun p hp => absurd hp (List.not_mem_nil p)⟩

lemma authWF_remove_user (d : AuthDict) (u : String) (h : AuthWF d) :
    AuthWF (remove_user d u) := by
  refine ⟨?_, fun p hp => h.2 p (List.mem_of_mem_filter hp)⟩
  exact List.Nodup.sublist (List.Sublist.map _ (List.filter_sublist d)) h.1

lemma authWF_add_user (mkpw : String → String → UserCredentials) (d : AuthDict)
    (u p : String) (r : Bool) (h : AuthWF d) (hmk : (mkpw u p).username = u) :
    AuthWF (add_user mkpw d u p r) := by
  unfold add_user
  by_cases hc : (pyContains d u && !r) = true
  · rw [if_pos hc]
    exact h
  · rw [if_neg hc]
    by_cases hp : (pyGet d u).isSome
    · refine ⟨?_, ?_⟩
      · rw [keys_pySet_mem d u _ hp]
        exact h.1
      · intro q hq
        rcases mem_pySet_mem d u _ hp q hq with rfl | hqd
        · exact ⟨hmk, by simp⟩
        · exact h.2 q hqd
    · have hnone : pyGet d u = none := by
        cases hg : pyGet d u with
        | none => rfl
        | some e => rw [hg] at hp; simp at hp
      rw [pySet_fresh d u _ hnone]
      refine ⟨?_, ?_⟩
      · have hu : u ∉ d.map (fun p => p.1) :=
          fun hm => hp ((pyGet_isSome_iff_mem_keys d u).mpr hm)
        rw [List.map_append]
        simp [List.nodup_append, h.1, hu]
      · intro q hq
        rcases List.mem_append.mp hq with hqd | hqs
        · exact h.2 q hqd
        · have hqe : q = (u, ⟨mkpw u p, []⟩) := by simpa using hqs
          subst hqe
          exact ⟨hmk, by simp⟩

lemma authWF_add_acl (d : AuthDict) (u role : String) (subject : Option String)
    (h : AuthWF d) : AuthWF (add_acl d u role subject) := by
  unfold add_acl
  cases hg : pyGet d u with
  | none => exact h
  | some entry =>
    have hp : (pyGet d u).isSome := by rw [hg]; rfl
    have hcu : entry.credentials.username = u := by
      have := (h.2 (u, entry) (mem_of_pyGet_some d u entry hg)).1
      simpa using this
    refine ⟨?_, ?_⟩
    · rw [keys_pySet_mem d u _ hp]
      exact h.1
    · intro q hq
      rcases mem_pySet_mem d u _ hp q hq with rfl | hqd
      · refine ⟨by simpa using hcu, ?_⟩
        intro a ha
        by_cases h1 : (role == "admin") = true
        · simp [h1] at ha
          simp [ha]
        · have h1' : (role == "admin") = false := by simpa [Bool.not_eq_true] using h1
          by_cases h2 : (role == "user") = true
          · simp [h1', h2] at ha
            rcases ha with ha | ha <;> simp [ha]
          · have h2' : (role == "user") = false := by simpa [Bool.not_eq_true] using h2
            simp [h1', h2'] at ha
      · exact h.2 q hqd

/-- Claim C6: removing a principal removes it and all of its permissions
together — the file rendered from any well-formed auth state after
`remove_user u` mentions `u` in neither the users section nor the
permissions section. -/
theorem remove_user_not_rendered (d : AuthDict) (u : String) (h : AuthWF d) :
    (∀ c ∈ (write_authfile (remove_user d u)).users, c.username ≠ u) ∧
    (∀ a ∈ (write_authfile (remove_user d u)).permissions, a.username ≠ u) := by
  constructor
  · intro c hc
    have hc' : c ∈ (remove_user d u).map (fun p => p.2.credentials) := hc
    rw [List.mem_map] at hc'
    obtain ⟨p, hp, rfl⟩ := hc'
    have hpf : p ∈ d.filter (fun r => r.1 != u) := hp
    have hpd : p ∈ d := List.mem_of_mem_filter hpf
    have hne : p.1 ≠ u := by simpa [bne_iff_ne] using List.of_mem_filter hpf
    rw [(h.2 p hpd).1]
    exact hne
  · intro a ha
    rcases mem_write_permissions.mp ha with ⟨p, hp, hap⟩
    have hpf : p ∈ d.filter (fun r => r.1 != u) := hp
    have hpd : p ∈ d := List.mem_of_mem_filter hpf
    have hne : p.1 ≠ u := by simpa [bne_iff_ne] using List.of_mem_filter hpf
    rw [(h.2 p hpd).2 a hap]
    exact hne

/-- Witness for the C6 theorem: after removing `relation-7` from the sample
dict, rendering yields only the operator user, and the theorem applies to it. -/
theorem remove_user_not_rendered_witness :
    (write_authfile (remove_user sampleAuthDict "relation-7")).users
      = [⟨"operator", "sha512", "s1", "h1"⟩] ∧
    (⟨"operator", "sha512", "s1", "h1"⟩ : UserCredentials).username ≠ "relation-7" :=
  ⟨by decide,
   (remove_user_not_rendered sampleAuthDict "relation-7" ⟨by decide, by decide⟩).1
     ⟨"operator", "sha512", "s1", "h1"⟩ (by decide)⟩

/-- Claim C7: rendering a well-formed auth state to the authfile and parsing
it back reconstructs the identical auth state — same usernames in the same
order, same credentials, same permission list per user. -/
theorem write_load_roundtrip (d : AuthDict) (h : AuthWF d) :
    load_authfile (write_authfile d) = d := by
  have hkeys : (d.map (fun p => p.2.credentials)).map (fun c => c.username)
      = d.map (fun p => p.1) := by
    rw [List.map_map]
    exact List.map_congr_left (fun p hp => (h.2 p hp).1)
  have hnd : ((d.map (fun p => p.2.credentials)).map (fun c => c.username)).Nodup := by
    rw [hkeys]
    exact h.1
  have hfresh : ∀ c ∈ d.map (fun p => p.2.credentials),
      pyGet ([] : AuthDict) c.username = none := fun c _ => rfl
  have hfold := foldl_pySet_fresh
    (fun c => ⟨c, (write_authfile d).permissions.filter
      (fun a => a.username == c.username)⟩)
    (d.map (fun p => p.2.credentials)) [] hnd hfresh
  refine Eq.trans hfold ?_
  rw [List.nil_append, List.map_map]
  have hpt : ∀ p ∈ d,
      ((fun c => ((c.username :  String),
          (⟨c, (write_authfile d).permissions.filter
            (fun a => a.username == c.username)⟩ : AuthDictEntry))) ∘
        (fun p => p.2.credentials)) p = p := by
    intro p hp
    have h1 : p.2.credentials.username = p.1 := (h.2 p hp).1
    show (p.2.credentials.username,
      (⟨p.2.credentials, (write_authfile d).permissions.filter
        (fun a => a.username == p.2.credentials.username)⟩ : AuthDictEntry)) = p
    rw [h1, write_permissions_filter d h p hp]
  rw [List.map_congr_left hpt]
  simp

/-- Witness for the C7 theorem: the sample dict survives a write/load
round trip unchanged. -/
theorem write_load_roundtrip_witness :
    load_authfile (write_authfile sampleAuthDict) = sampleAuthDict :=
  write_load_roundtrip sampleAuthDict ⟨by decide, by decide⟩

end Karapace
